import Mathlib

/-
Verification of the legal-rfi-assistant document question-extraction and
answer-retrieval pipeline (code/streamlit-app/app.py) against its
natural-language specification.

The pipeline is embedded shallowly: external services (the generation model,
the retrieve-and-generate endpoint) are parameters (oracles); the Python
functions get_questions, get_answer, run_chunk_document and
create_word_document are translated into pure Lean functions over those
oracles.
-/

namespace RFI

/-- Record built per sub-question by get_answer: the Python dict with keys
"question", "answer" and "metadata" (the citation field). -/
structure AnswerRecord where
  question : String
  answer : String
  metadata : String
deriving Repr, DecidableEq

/-- One entry of the citations list of a retrieve-and-generate response; each
element of retrievedReferences stands for one retrieved reference, recorded
here as its location.s3Location.uri string. -/
structure Citation where
  retrievedReferences : List String
deriving Repr, DecidableEq

/-- Successful retrieve-and-generate response: output.text plus the citations
list, as read by get_answer. -/
structure RagResponse where
  text : String
  citations : List Citation
deriving Repr, DecidableEq

/-- Oracle for client.retrieve_and_generate: maps the sub-question text to a
response or to an exception message. -/
def RagOracle : Type := String → Except String RagResponse

/-- Substring test on character lists: pat occurs somewhere in the list.
Mirrors the Python operator `pat in s` on strings. -/
def listContains (pat : List Char) : List Char → Bool
  | [] => pat.isEmpty
  | c :: t => List.isPrefixOf pat (c :: t) || listContains pat t

/-- Substring test on strings, Python `pat in s`. -/
def strContains (s pat : String) : Bool := listContains pat.toList s.toList

/-- Prefix test on strings, Python `s.startswith(pat)`. -/
def strStartsWith (s pat : String) : Bool := List.isPrefixOf pat.toList s.toList

/-- Left-to-right non-overlapping split on the two-character double-newline
separator, with an accumulator for the current segment; mirrors the Python
split get_answer applies to the extractor output. -/
def splitTwoNl : List Char → List Char → List String
  | [], acc => [String.mk acc.reverse]
  | '\n' :: '\n' :: t, acc => String.mk acc.reverse :: splitTwoNl t []
  | c :: t, acc => splitTwoNl t (c :: acc)

/-- Python split of a string on the double-newline separator. -/
def pySplitDNL (s : String) : List String := splitTwoNl s.toList []

/-- Negative-result test of get_answer (app.py line 415): the code takes the
positive branch iff none of the five fixed phrases occurs in the response
text, so the result is negative iff at least one occurs. -/
def isNegativeAnswer (s : String) : Bool :=
  strContains s "Sorry, I am unable" ||
  strContains s "The search results do not contain" ||
  strContains s "No answer" ||
  strContains s "I could not find" ||
  strContains s "there is no relevant information to extract for this question"

/-- Error-marker answer written by the except branch of get_answer. -/
def errorAnswerText : String := "Error: Unable to process the question."

/-- One iteration of the get_answer loop body (app.py lines 375-430) for a
single sub-question. The dict starts as {"question": "", "answer": ""};
question is assigned only after the retrieve_and_generate call returns
(line 413). When the call raises, the except branch leaves question empty and
writes the error-marker answer with blank metadata. When the response text is
non-negative but the citations list is empty, the subscript
response["citations"][0] raises IndexError, which the same except branch
catches after question was already assigned. Otherwise metadata is the first
citation's first retrieved reference uri prefixed with "url: " when that
citation has references, else a single blank. -/
def processSubQuestion (rag : RagOracle) (q : String) : AnswerRecord :=
  match rag q with
  | .error _ => { question := "", answer := errorAnswerText, metadata := " " }
  | .ok resp =>
    if isNegativeAnswer resp.text then
      { question := q, answer := " ", metadata := " " }
    else
      match resp.citations with
      | [] => { question := q, answer := errorAnswerText, metadata := " " }
      | c :: _ =>
        match c.retrievedReferences with
        | [] => { question := q, answer := "Answer: " ++ resp.text, metadata := " " }
        | u :: _ => { question := q, answer := "Answer: " ++ resp.text, metadata := "url: " ++ u }

/-- Accumulating loop of get_answer: answers.append(answer) per sub-question,
in iteration order. -/
def answerLoop (rag : RagOracle) : List String → List AnswerRecord → List AnswerRecord
  | [], acc => acc
  | q :: rest, acc => answerLoop rag rest (acc ++ [processSubQuestion rag q])

/-- Sub-question list of get_answer: the double-newline split of the
extractor output with the first segment dropped (the loop runs over
llm_generated_questions_array[1:]). -/
def subQuestions (s : String) : List String := (pySplitDNL s).drop 1

/-- Translation of get_answer (app.py lines 338-432): split the extractor
output on double newlines, discard the first segment, and process the
remaining sub-questions in order, appending one record each. -/
def get_answer (rag : RagOracle) (questions : String) : List AnswerRecord :=
  answerLoop rag (subQuestions questions) []

/-- Outcome of one bedrock invoke_model generation call as get_questions sees
it: either the content blocks of the parsed response body (each block's text),
or a ClientError. -/
inductive GenResult where
  | ok (blocks : List String)
  | err (msg : String)
deriving Repr, DecidableEq

/-- Translation of the response handling of get_questions (app.py lines
317-335): on ClientError the exception is re-raised; otherwise the for loop
returns on its very first iteration, yielding "" when the first block's text
starts with "Unfortunately" and the text itself otherwise; with no content
blocks the function falls through and returns None. -/
def get_questions : GenResult → Except String (Option String)
  | .err m => .error m
  | .ok [] => .ok none
  | .ok (b :: _) => .ok (some (if strStartsWith b "Unfortunately" then "" else b))

/-- Oracle for the generation model: the outcome of invoke_model on one
chunk's text (the chunk is embedded in the fixed prompt). -/
def GenOracle : Type := String → GenResult

/-- Tally of the externally observable effects accumulated by the chunk loop
of run_chunk_document: the report list questionandanswer, the chunk counter,
and how many generation and retrieval calls were issued. -/
structure RunTally where
  report : List AnswerRecord
  counter : Nat
  genCalls : Nat
  ragCalls : Nat
deriving Repr, DecidableEq

/-- Tally at loop entry. -/
def initTally : RunTally := ⟨[], 0, 0, 0⟩

/-- The for loop of run_chunk_document (app.py lines 486-494), processing
chunks strictly in order. get_questions re-raises ClientError, and the loop
sits inside the single try of run_chunk_document, so an extraction error
aborts the loop at once (.error), discarding nothing so far tallied of calls
but preventing every later chunk from being processed. A truthy extractor
output (a non-None, non-empty string) is passed to get_answer and the
resulting records are appended to the report; the counter advances for every
chunk reached. -/
def processChunks (gen : GenOracle) (rag : RagOracle) :
    List String → RunTally → Except (String × RunTally) RunTally
  | [], t => .ok t
  | c :: rest, t =>
    match get_questions (gen c) with
    | .error m => .error (m, { t with genCalls := t.genCalls + 1 })
    | .ok out =>
      let t1 : RunTally := { t with genCalls := t.genCalls + 1 }
      let t2 : RunTally :=
        match out with
        | none => t1
        | some s =>
          if s = "" then t1
          else { t1 with report := t1.report ++ get_answer rag s,
                         ragCalls := t1.ragCalls + (subQuestions s).length }
      processChunks gen rag rest { t2 with counter := t2.counter + 1 }

/-- Externally visible outcome of one run_chunk_document call: the sequence
of status values written to the table (in write order), the report handed to
process_message, the external call counts, and the metadata recorded with
COMPLETED (chunks_processed, total_chunks, answers_found) when the run
succeeds. -/
structure RunOutcome where
  statusTrace : List String
  report : List AnswerRecord
  genCalls : Nat
  ragCalls : Nat
  completedMeta : Option (Nat × Nat × Nat)
deriving Repr, DecidableEq

/-- Translation of run_chunk_document (app.py lines 463-515) after the
document has been loaded and split into chunks: PROCESSING is written first;
on normal loop completion the report is published via process_message and
COMPLETED is written with metadata; on any exception the except branch writes
ERROR and the local report is discarded (process_message is never called). -/
def run_chunk_document (gen : GenOracle) (rag : RagOracle) (chunks : List String) : RunOutcome :=
  match processChunks gen rag chunks initTally with
  | .ok t =>
    { statusTrace := ["PROCESSING", "COMPLETED"], report := t.report,
      genCalls := t.genCalls, ragCalls := t.ragCalls,
      completedMeta := some (t.counter, chunks.length, t.report.length) }
  | .error (_, t) =>
    { statusTrace := ["PROCESSING", "ERROR"], report := [],
      genCalls := t.genCalls, ragCalls := t.ragCalls, completedMeta := none }

/-- Translation of the processing branch of display_upload_tab (app.py lines
751-759): after a successful upload the status UPLOADED is written, then
run_chunk_document runs; so the status trace of the whole run prepends
UPLOADED to the trace of run_chunk_document. -/
def upload_and_process (gen : GenOracle) (rag : RagOracle) (chunks : List String) : RunOutcome :=
  let o := run_chunk_document gen rag chunks
  { o with statusTrace := "UPLOADED" :: o.statusTrace }

/-- Records contributed by one chunk in the loop body: the get_answer result
when the extractor output is truthy, nothing otherwise (a falsy output skips
the chunk, and this function is only meaningful on the non-error path). -/
def chunkRecords (gen : GenOracle) (rag : RagOracle) (c : String) : List AnswerRecord :=
  match get_questions (gen c) with
  | .ok (some s) => if s = "" then [] else get_answer rag s
  | _ => []

/-- Python whitespace class used by str.strip(). -/
def isPyWhitespace (c : Char) : Bool :=
  c = ' ' || c = '\t' || c = '\n' || c = '\r' || c = Char.ofNat 11 || c = Char.ofNat 12

/-- Python s.strip(): remove leading and trailing whitespace. -/
def pyStrip (s : String) : String :=
  String.mk (((s.toList.dropWhile isPyWhitespace).reverse.dropWhile isPyWhitespace).reverse)

/-- One question section of the exported Word document: the numbered heading
(kept as the displayed number i+1), the bold question run, the answer
paragraph (or the italic no-answer placeholder), and the optional source
paragraph. -/
structure DocSection where
  headingNumber : Nat
  questionText : String
  answerText : String
  answerIsPlaceholder : Bool
  source : Option String
deriving Repr, DecidableEq

/-- Section built by one iteration of the results loop of
create_word_document (app.py lines 560-593). -/
def sectionOfRecord (i : Nat) (r : AnswerRecord) : DocSection :=
  { headingNumber := i + 1,
    questionText := r.question,
    answerText := if pyStrip r.answer ≠ "" then r.answer else "No answer found for this question.",
    answerIsPlaceholder := pyStrip r.answer = "",
    source := if pyStrip r.metadata ≠ "" then some r.metadata else none }

/-- Translation of create_word_document (app.py lines 543-599): one section
per AnswerRecord, in list order (the title and timestamp paragraphs carry no
record data and are omitted from the model). -/
def create_word_document (results : List AnswerRecord) : List DocSection :=
  results.enum.map (fun p => sectionOfRecord p.1 p.2)

/-- Modelled from the spec: the Document Chunker is delegated to a
third-party token text splitter (TokenTextSplitter, chunk_size 1000,
chunk_overlap 0, app.py line 475) whose code is not part of this repository.
Following the spec's contract — a finite ordered sequence of windows of at
most C tokens with an overlap of O tokens between consecutive windows — the
chunker takes a window of up to C tokens at every start position that is a
multiple of the stride step = C - O and below the token count. Tokens are
abstract naturals. -/
def chunkText (C step : Nat) (toks : List Nat) : List (List Nat) :=
  if _hd : toks.length = 0 ∨ step = 0 then []
  else toks.take C :: chunkText C step (toks.drop step)
termination_by toks.length
decreasing_by
  rw [List.length_drop]
  push_neg at _hd
  omega

/-- Helper: the accumulating answer loop equals the accumulator followed by
the map of the per-sub-question body over the remaining sub-questions. -/
theorem answerLoop_eq_append_map (rag : RagOracle) :
    ∀ (qs : List String) (acc : List AnswerRecord),
      answerLoop rag qs acc = acc ++ qs.map (processSubQuestion rag) := by
  intro qs
  induction qs with
  | nil => intro acc; simp [answerLoop]
  | cons q rest ih => intro acc; simp [answerLoop, ih]

/-- Helper: get_answer is the map of the loop body over the sub-question
list. -/
theorem get_answer_eq_map (rag : RagOracle) (s : String) :
    get_answer rag s = (subQuestions s).map (processSubQuestion rag) := by
  simp [get_answer, answerLoop_eq_append_map]

/-- Helper: the double-newline split never returns an empty list. -/
theorem splitTwoNl_length_pos (l acc : List Char) : 0 < (splitTwoNl l acc).length := by
  induction l, acc using splitTwoNl.induct with
  | case1 acc => simp [splitTwoNl]
  | case2 t acc ih => simp [splitTwoNl]
  | case3 c t acc h ih => rw [splitTwoNl.eq_3] <;> first | exact ih | exact h

/-- C4: for every extracted-question string, the Answer Resolver processes
exactly the double-newline split segments with the first unconditionally
discarded, produces exactly one AnswerRecord per remaining sub-question (the
record list length equals the number of remaining sub-questions, hence is at
most the number of split segments), and the j-th record is the processed j-th
sub-question, so records come back in split order. -/
theorem C4_split_one_record_in_order (rag : RagOracle) (s : String) :
    (get_answer rag s).length = ((pySplitDNL s).drop 1).length
  ∧ (get_answer rag s).length ≤ (pySplitDNL s).length
  ∧ ∀ j : Nat, (get_answer rag s)[j]? = ((subQuestions s)[j]?).map (processSubQuestion rag) := by
  refine ⟨?_, ?_, ?_⟩
  · rw [get_answer_eq_map]; simp [subQuestions]
  · rw [get_answer_eq_map]; simp [subQuestions]
  · intro j; rw [get_answer_eq_map]; exact List.getElem?_map _ _ _

/-- C5: the resolver returns one record for every sub-question even when some
retrieval calls fail, and any sub-question whose call raises is recorded with
the error-marker answer and blank citation while the rest of the batch is
still processed (the record list keeps its full length). -/
theorem C5_per_subquestion_error_isolation (rag : RagOracle) (s : String) :
    (get_answer rag s).length = (subQuestions s).length
  ∧ ∀ (j : Nat) (q e : String), (subQuestions s)[j]? = some q → rag q = .error e →
      (get_answer rag s)[j]? =
        some { question := "", answer := errorAnswerText, metadata := " " } := by
  constructor
  · rw [get_answer_eq_map]; simp
  · intro j q e hq he
    rw [get_answer_eq_map, List.getElem?_map, hq]
    simp [processSubQuestion, he]

/-- Witness for C5: an oracle that fails on every call, on a string that
splits into two sub-questions; the first record is the error record. -/
theorem C5_per_subquestion_error_isolation_witness :
    (get_answer (fun _ => .error "boom") "head\n\n1. a?\n\n2. b?")[0]? =
      some { question := "", answer := errorAnswerText, metadata := " " } :=
  (C5_per_subquestion_error_isolation (fun _ => .error "boom") "head\n\n1. a?\n\n2. b?").2
    0 "1. a?" "boom" (by decide) rfl

/-- C10: when the retrieval call for a sub-question raises, the appended
record's question field is the empty string — the dict starts with question
"" and the field is assigned only after the call returns, so error records
carry no question text into the report or the export. -/
theorem C10_error_record_has_empty_question (rag : RagOracle) (q e : String)
    (h : rag q = .error e) :
    processSubQuestion rag q =
      { question := "", answer := errorAnswerText, metadata := " " } := by
  simp [processSubQuestion, h]

/-- Witness for C10 at a concrete failing oracle. -/
theorem C10_error_record_has_empty_question_witness :
    processSubQuestion (fun _ => .error "timeout") "1. a?" =
      { question := "", answer := errorAnswerText, metadata := " " } :=
  C10_error_record_has_empty_question (fun _ => .error "timeout") "1. a?" "timeout" rfl

/-- C6: the question extractor reads only the first text content block of a
successful generation response: it returns "" when that block's text starts
with the negative marker "Unfortunately" and the text verbatim otherwise, and
the blocks after the first never influence the result. -/
theorem C6_extractor_first_block_only (b : String) (rest rest2 : List String) :
    get_questions (.ok (b :: rest)) =
      .ok (some (if strStartsWith b "Unfortunately" then "" else b))
  ∧ get_questions (.ok (b :: rest)) = get_questions (.ok (b :: rest2)) :=
  ⟨rfl, rfl⟩

/-- C3 is false as stated: on a successful response whose text contains the
negative phrase "I could not find", get_answer records the single-space blank
" " as answer and citation, not the empty string "". -/
theorem C3_counterexample :
    strContains "I could not find the answer in the documents." "I could not find" = true
  ∧ processSubQuestion (fun _ => .ok ⟨"I could not find the answer in the documents.", []⟩)
      "1. What is the deadline?" =
      { question := "1. What is the deadline?", answer := " ", metadata := " " }
  ∧ (processSubQuestion (fun _ => .ok ⟨"I could not find the answer in the documents.", []⟩)
      "1. What is the deadline?").answer ≠ "" :=
  ⟨by decide, by decide, by decide⟩

/-- C3 amended: on a successful retrieval call, a response text containing
"I could not find" (or any phrase of the fixed negative list) makes the
resolver record the sub-question with a single-space blank answer and
single-space blank citation (both stripping to empty, not a generic error);
otherwise, when the response carries at least one citation entry, the answer
is recorded with the literal prefix "Answer: " and the citation is the first
citation's first retrieved source uri with the literal prefix "url: " when
that citation has references, else the single-space blank placeholder. -/
theorem C3_amended_negative_blank_records (rag : RagOracle) (q : String) (resp : RagResponse)
    (hok : rag q = .ok resp) :
    (strContains resp.text "I could not find" = true → isNegativeAnswer resp.text = true)
  ∧ (isNegativeAnswer resp.text = true →
      processSubQuestion rag q = { question := q, answer := " ", metadata := " " })
  ∧ (isNegativeAnswer resp.text = false →
      ∀ (c : Citation) (cs : List Citation), resp.citations = c :: cs →
        ((c.retrievedReferences = [] →
            processSubQuestion rag q =
              { question := q, answer := "Answer: " ++ resp.text, metadata := " " })
         ∧ ∀ (u : String) (us : List String), c.retrievedReferences = u :: us →
            processSubQuestion rag q =
              { question := q, answer := "Answer: " ++ resp.text,
                metadata := "url: " ++ u })) := by
  refine ⟨?_, ?_, ?_⟩
  · intro h; simp [isNegativeAnswer, h]
  · intro h; simp [processSubQuestion, hok, h]
  · intro h c cs hc
    constructor
    · intro hr; simp [processSubQuestion, hok, h, hc, hr]
    · intro u us hr; simp [processSubQuestion, hok, h, hc, hr]

/-- Witness for the amended C3 at a concrete negative-result response. -/
theorem C3_amended_negative_blank_records_witness :
    processSubQuestion (fun _ => .ok ⟨"I could not find it.", []⟩) "1. q?" =
      { question := "1. q?", answer := " ", metadata := " " } :=
  (C3_amended_negative_blank_records (fun _ => .ok ⟨"I could not find it.", []⟩) "1. q?"
      ⟨"I could not find it.", []⟩ rfl).2.1 (by decide)

/-- C7: within one run the persisted status sequence is exactly UPLOADED,
then PROCESSING at pipeline start, then exactly one terminal status —
COMPLETED or ERROR — and no status is written after the terminal one. -/
theorem C7_status_state_machine (gen : GenOracle) (rag : RagOracle) (chunks : List String) :
    (upload_and_process gen rag chunks).statusTrace = ["UPLOADED", "PROCESSING", "COMPLETED"]
  ∨ (upload_and_process gen rag chunks).statusTrace = ["UPLOADED", "PROCESSING", "ERROR"] := by
  cases h : processChunks gen rag chunks initTally with
  | ok t => left; simp [upload_and_process, run_chunk_document, h]
  | error p => right; simp [upload_and_process, run_chunk_document, h]

/-- C1 is false as stated: with two chunks whose first extraction call fails,
the whole run aborts — the second chunk is never extracted (one single
generation call is made, with no retry), zero AnswerRecords are produced, and
the terminal status is ERROR even though the failed chunk was not the only
chunk (the claim requires COMPLETED and processing of the remaining chunk). -/
theorem C1_counterexample :
    run_chunk_document (fun c => if c = "chunkA" then .err "network error" else .ok ["h\n\n1. q?"])
        (fun _ => .ok ⟨"fine", [⟨["u"]⟩]⟩) ["chunkA", "chunkB"] =
      { statusTrace := ["PROCESSING", "ERROR"], report := [], genCalls := 1, ragCalls := 0,
        completedMeta := none }
  ∧ (run_chunk_document (fun c => if c = "chunkA" then .err "network error" else .ok ["h\n\n1. q?"])
        (fun _ => .ok ⟨"fine", [⟨["u"]⟩]⟩) ["chunkA", "chunkB"]).statusTrace ≠
      ["PROCESSING", "COMPLETED"] :=
  ⟨by decide, by decide⟩

/-- C1 amended: a ClientError raised by a chunk's question-extraction call
aborts the entire run, not just that chunk: the loop stops at the failing
chunk after exactly one further generation call (no retry), no later chunk is
processed, the run's report is discarded (zero AnswerRecords are published),
and the terminal status is ERROR regardless of how many chunks existed. -/
theorem C1_amended_extraction_error_aborts_run (gen : GenOracle) (rag : RagOracle)
    (c : String) (rest : List String) (t : RunTally) (e : String)
    (h : get_questions (gen c) = .error e) :
    processChunks gen rag (c :: rest) t = .error (e, { t with genCalls := t.genCalls + 1 })
  ∧ ∀ (chunks : List String) (e2 : String) (t2 : RunTally),
      processChunks gen rag chunks initTally = .error (e2, t2) →
      run_chunk_document gen rag chunks =
        { statusTrace := ["PROCESSING", "ERROR"], report := [], genCalls := t2.genCalls,
          ragCalls := t2.ragCalls, completedMeta := none } := by
  constructor
  · simp [processChunks, h]
  · intro chunks e2 t2 h2
    simp [run_chunk_document, h2]

/-- Witness for the amended C1: the extractor fails on the first of two
chunks; the loop aborts immediately with one generation call tallied. -/
theorem C1_amended_extraction_error_aborts_run_witness :
    processChunks (fun _ => .err "net") (fun _ => .error "x") ["A", "B"] initTally =
      .error ("net", { report := [], counter := 0, genCalls := 1, ragCalls := 0 }) :=
  (C1_amended_extraction_error_aborts_run (fun _ => .err "net") (fun _ => .error "x")
      "A" ["B"] initTally "net" rfl).1

/-- Helper: chunking an empty token list yields no chunks. -/
theorem chunkText_nil (C step : Nat) : chunkText C step [] = [] := by
  simp [chunkText]

/-- C2 is false as stated: no ChunkingError exists anywhere in the code; an
empty document yields zero chunks and run_chunk_document then terminates with
status COMPLETED (zero chunks, zero answers) after zero external calls,
rather than failing. -/
theorem C2_counterexample :
    chunkText 1000 1000 [] = []
  ∧ run_chunk_document (fun _ => .ok []) (fun _ => .error "unused") [] =
      { statusTrace := ["PROCESSING", "COMPLETED"], report := [], genCalls := 0, ragCalls := 0,
        completedMeta := some (0, 0, 0) }
  ∧ (run_chunk_document (fun _ => .ok []) (fun _ => .error "unused") []).statusTrace ≠
      ["PROCESSING", "ERROR"] :=
  ⟨chunkText_nil 1000 1000, by decide, by decide⟩

/-- C2 amended: a run whose input document text is empty produces zero chunks
and completes with terminal status COMPLETED, metadata recording zero chunks
processed and zero answers, and makes no external generation or retrieval
call; no ChunkingError is raised because none exists in the code. -/
theorem C2_amended_empty_input_completes (gen : GenOracle) (rag : RagOracle) (C O : Nat) :
    chunkText C (C - O) [] = []
  ∧ run_chunk_document gen rag [] =
      { statusTrace := ["PROCESSING", "COMPLETED"], report := [], genCalls := 0, ragCalls := 0,
        completedMeta := some (0, 0, 0) } :=
  ⟨chunkText_nil C (C - O), rfl⟩

/-- Helper: on the success path, the final report of the chunk loop is the
starting report followed by the per-chunk record lists in chunk order. -/
theorem processChunks_ok_report (gen : GenOracle) (rag : RagOracle) :
    ∀ (chunks : List String) (t0 t : RunTally),
      processChunks gen rag chunks t0 = .ok t →
      t.report = t0.report ++ (chunks.map (chunkRecords gen rag)).flatten := by
  intro chunks
  induction chunks with
  | nil =>
    intro t0 t h
    simp only [processChunks, Except.ok.injEq] at h
    subst h
    simp
  | cons c rest ih =>
    intro t0 t h
    simp only [processChunks] at h
    cases hg : get_questions (gen c) with
    | error m =>
      rw [hg] at h
      simp at h
    | ok out =>
      rw [hg] at h
      cases out with
      | none =>
        simp at h
        have := ih _ _ h
        simp [this, chunkRecords, hg]
      | some s =>
        by_cases hs : s = ""
        · subst hs
          simp at h
          have := ih _ _ h
          simp [this, chunkRecords, hg]
        · simp [hs] at h
          have := ih _ _ h
          simp [this, chunkRecords, hg, hs]

/-- Helper: the export sections keep the question texts in input order, for
any starting index of the numbering. -/
theorem enumFrom_sections_questions :
    ∀ (rs : List AnswerRecord) (n : Nat),
      ((List.enumFrom n rs).map (fun p => sectionOfRecord p.1 p.2)).map
          DocSection.questionText
        = rs.map AnswerRecord.question := by
  intro rs
  induction rs with
  | nil => intro n; rfl
  | cons r rest ih =>
    intro n
    simp only [List.enumFrom, List.map_cons, List.cons.injEq]
    exact ⟨rfl, ih (n + 1)⟩

/-- C8: on a successful run the accumulated report is the concatenation of
the per-chunk AnswerRecord lists in chunk-then-sub-question order, and the
export is a pure function of the ordered record list whose question sections
appear in exactly the input list's ordering — so re-running it on the same
list reproduces the same ordering. -/
theorem C8_assembler_preserves_order (gen : GenOracle) (rag : RagOracle)
    (chunks : List String) (t : RunTally)
    (h : processChunks gen rag chunks initTally = .ok t) :
    (run_chunk_document gen rag chunks).report =
      (chunks.map (chunkRecords gen rag)).flatten
  ∧ ∀ rs : List AnswerRecord,
      (create_word_document rs).map DocSection.questionText =
        rs.map AnswerRecord.question := by
  constructor
  · have hr := processChunks_ok_report gen rag chunks initTally t h
    simp only [run_chunk_document, h]
    simpa [initTally] using hr
  · intro rs
    simp only [create_word_document, List.enum]
    exact enumFrom_sections_questions rs 0

/-- Witness for C8: a one-chunk run whose single sub-question succeeds. -/
theorem C8_assembler_preserves_order_witness :
    (run_chunk_document (fun _ => .ok ["h\n\n1. q?"]) (fun _ => .ok ⟨"fine", [⟨["u"]⟩]⟩)
        ["A"]).report =
      (["A"].map (chunkRecords (fun _ => .ok ["h\n\n1. q?"])
        (fun _ => .ok ⟨"fine", [⟨["u"]⟩]⟩))).flatten :=
  (C8_assembler_preserves_order (fun _ => .ok ["h\n\n1. q?"]) (fun _ => .ok ⟨"fine", [⟨["u"]⟩]⟩)
      ["A"]
      { report := [{ question := "1. q?", answer := "Answer: fine", metadata := "url: u" }],
        counter := 1, genCalls := 1, ragCalls := 1 }
      rfl).1

/-- Helper: chunking a non-empty token list with a positive stride takes the
first window of up to C tokens and recurses past the stride. -/
theorem chunkText_cons (C step : Nat) (toks : List Nat) (h0 : toks.length ≠ 0)
    (hs : step ≠ 0) :
    chunkText C step toks = toks.take C :: chunkText C step (toks.drop step) := by
  rw [chunkText]
  simp [h0, hs]

/-- Helper: the number of chunks is the ceiling of the token count divided by
the stride, by strong induction on a bound of the token count. -/
theorem chunkText_length (C step : Nat) (hs : 0 < step) :
    ∀ (n : Nat) (toks : List Nat), toks.length ≤ n →
      (chunkText C step toks).length = (toks.length + step - 1) / step := by
  intro n
  induction n with
  | zero =>
    intro toks h
    have h0 : toks = [] := List.length_eq_zero.mp (by omega)
    subst h0
    rw [chunkText_nil]
    simp [Nat.div_eq_of_lt (show step - 1 < step by omega)]
  | succ n ih =>
    intro toks h
    by_cases h0 : toks.length = 0
    · have he : toks = [] := List.length_eq_zero.mp h0
      subst he
      rw [chunkText_nil]
      simp [Nat.div_eq_of_lt (show step - 1 < step by omega)]
    · rw [chunkText_cons C step toks h0 (by omega)]
      simp only [List.length_cons]
      rw [ih (toks.drop step) (by rw [List.length_drop]; omega), List.length_drop]
      by_cases hle : toks.length ≤ step
      · have hz : toks.length - step = 0 := by omega
        rw [hz, Nat.div_eq_of_lt (show 0 + step - 1 < step by omega)]
        have h1 : 1 * step ≤ toks.length + step - 1 := by omega
        have h2 : toks.length + step - 1 < (1 + 1) * step := by omega
        rw [Nat.div_eq_of_lt_le h1 h2]
      · have h3 : toks.length - step + step - 1 = toks.length - 1 := by omega
        have h4 : toks.length + step - 1 = toks.length - 1 + step := by omega
        rw [h3, h4, Nat.add_div_right _ hs]

/-- Helper: every chunk holds at most C tokens and none is empty, provided
the window size C is positive. -/
theorem chunkText_bounds (C step : Nat) (hC : 0 < C) :
    ∀ (n : Nat) (toks : List Nat), toks.length ≤ n →
      ∀ ch ∈ chunkText C step toks, ch.length ≤ C ∧ ch ≠ [] := by
  intro n
  induction n with
  | zero =>
    intro toks h ch hch
    have h0 : toks = [] := List.length_eq_zero.mp (by omega)
    subst h0
    rw [chunkText_nil] at hch
    simp at hch
  | succ n ih =>
    intro toks h ch hch
    by_cases h0 : toks.length = 0
    · have he : toks = [] := List.length_eq_zero.mp h0
      subst he
      rw [chunkText_nil] at hch
      simp at hch
    · by_cases hstep : step = 0
      · rw [chunkText] at hch
        simp [hstep] at hch
      · rw [chunkText_cons C step toks h0 hstep] at hch
        rcases List.mem_cons.mp hch with hhd | htl
        · subst hhd
          constructor
          · rw [List.length_take]; omega
          · intro hc
            have : (toks.take C).length = 0 := by rw [hc]; rfl
            rw [List.length_take] at this
            omega
        · exact ih (toks.drop step) (by rw [List.length_drop]; omega) ch htl

/-- C9: with configured chunk size C and overlap O (O < C), the modelled
chunker produces exactly ceil(L / (C - O)) chunks — written
(L + (C - O) - 1) / (C - O) in natural-number division — which for O = 0
reduces to ceil(L / C); every chunk holds at most C tokens and no chunk is
empty. -/
theorem C9_chunker_count_bounds (C O : Nat) (hO : O < C) (toks : List Nat) :
    (chunkText C (C - O) toks).length = (toks.length + (C - O) - 1) / (C - O)
  ∧ (O = 0 → (chunkText C C toks).length = (toks.length + C - 1) / C)
  ∧ ∀ ch ∈ chunkText C (C - O) toks, ch.length ≤ C ∧ ch ≠ [] := by
  have hstep : 0 < C - O := by omega
  refine ⟨?_, ?_, ?_⟩
  · exact chunkText_length C (C - O) hstep toks.length toks le_rfl
  · intro hz
    subst hz
    simpa using chunkText_length C (C - 0) hstep toks.length toks le_rfl
  · exact chunkText_bounds C (C - O) (by omega) toks.length toks le_rfl

/-- Witness for C9: C = 4, O = 1, ten tokens — four chunks of at most four
tokens each. -/
theorem C9_chunker_count_bounds_witness :
    (chunkText 4 3 [0, 1, 2, 3, 4, 5, 6, 7, 8, 9]).length = (10 + 3 - 1) / 3 := by
  have h := (C9_chunker_count_bounds 4 1 (by omega) [0, 1, 2, 3, 4, 5, 6, 7, 8, 9]).1
  simpa using h

end RFI
